import Mathlib

/-!
# Verification of the cloud-scheduler-button server (`src/server.js`)

This file gives a shallow embedding of the request-handling logic of
`src/server.js` and proves properties of it.

The JavaScript program is asynchronous and effectful; we embed it as pure
Lean functions over an explicit `World` that records how the external
collaborators (the metadata service, the JavaScript JSON runtime, the
scheduler API, the filesystem) answer each outbound call.  Each handler
returns, besides its HTTP response, the list of outbound calls it issued,
in the order the source code issues them; temporal claims (short-circuiting,
stage ordering) are stated about that trace.
-/

namespace CloudSchedulerButton

/-- Outcome of one HTTP GET against the metadata service, as seen by
`getMetadata` / `getTokenFromMetadataServer` in `server.js`: a 200 with a
body, a non-200 status (with its status message), or a transport error. -/
inductive MetaResult where
  | ok (body : String)
  | httpError (statusCode : Nat) (statusMessage : String)
  | transportError (msg : String)
deriving DecidableEq

/-- Model of the JavaScript runtime evaluating `JSON.parse(data)` followed by
the property access `.access_token` (lines 65–66 of `server.js`):
either `JSON.parse` throws (with an error message), or it yields a value whose
`access_token` property is a string or `undefined` (`none`). -/
inductive JsonParse where
  | parseError (msg : String)
  | object (access_token : Option String)
deriving DecidableEq

/-- The `options` object passed to `https.request` for the scheduler call
(lines 112–120 / 174–182 of `server.js`), together with the body written by
`apiReq.write` before `apiReq.end()`. -/
structure SchedRequest where
  hostname : String
  path : String
  method : String
  authorization : String
  contentType : String
  body : String
deriving DecidableEq

/-- Outcome of the scheduler API call: a response (status code, status
message, accumulated body) or a request-level transport error
(`apiReq.on('error', ...)`). -/
inductive SchedResult where
  | response (statusCode : Nat) (statusMessage : String) (body : String)
  | transportError (msg : String)
deriving DecidableEq

/-- The external world one request runs against: the metadata service's
answer per metadata path, the JS runtime's JSON behaviour per body string,
the scheduler API's answer per request, and the content of `index.html`. -/
structure World where
  metadata : String → MetaResult
  jsonParse : String → JsonParse
  scheduler : SchedRequest → SchedResult
  indexHtml : Except String String

/-- The process environment the server reads: `JOB_NAME` (checked non-empty
at start-up, line 8–11) and the optional `REGION` override. -/
structure Env where
  jobName : String
  region : Option String

/-- The response written on the inbound request: `res.statusCode` (Node
defaults it to 200 when not assigned), the `Content-Type` header if one was
set, and the body passed to `res.end`. -/
structure HttpResponse where
  statusCode : Nat
  contentType : Option String
  body : String
deriving DecidableEq

/-- An inbound HTTP request: its method and its request-target (`req.url`). -/
structure HttpRequest where
  method : String
  url : String
deriving DecidableEq

/-- One outbound call issued while handling a request: a GET to the metadata
service (identified by its metadata path) or a POST to the scheduler API. -/
inductive Call where
  | metadataGet (path : String)
  | schedulerPost (req : SchedRequest)
deriving DecidableEq

/-- `getMetadata(path)` (lines 18–42): resolves with the body on a 200,
rejects with the corresponding error message otherwise. -/
def getMetadata (w : World) (p : String) : Except String String :=
  match w.metadata p with
  | .ok data => .ok data
  | .httpError st sm => .error ("Error getting metadata: " ++ toString st ++ " - " ++ sm)
  | .transportError m => .error ("Error requesting metadata: " ++ m)

/-- JavaScript `str.split(sep)`, on character lists.  Returns the first
segment and the list of remaining segments (so the full JS array is
`fst :: snd`, which is never empty, matching `''.split('/') === ['']`). -/
def jsSplit (sep : Char) : List Char → List Char × List (List Char)
  | [] => ([], [])
  | c :: cs =>
    let p := jsSplit sep cs
    if c = sep then ([], p.1 :: p.2) else (c :: p.1, p.2)

/-- JavaScript `str.split(sep).pop()`: the last segment of the split. -/
def splitPop (sep : Char) (l : List Char) : List Char :=
  let p := jsSplit sep l
  p.2.getLastD p.1

/-- `region.split('/').pop()` (line 49 of `server.js`). -/
def lastSegment (s : String) : String :=
  String.mk (splitPop '/' s.data)

/-- `getProjectAndLocation()` (lines 45–54): awaits the project-id lookup,
then the region lookup, extracts the trailing region segment, and wraps any
failure's message.  The second component is the trace of metadata GETs
actually issued. -/
def getProjectAndLocation (w : World) : Except String (String × String) × List Call :=
  match getMetadata w "project/project-id" with
  | .error m =>
    (.error ("Error getting project ID and/or location from metadata server: " ++ m),
     [.metadataGet "project/project-id"])
  | .ok projectId =>
    match getMetadata w "instance/region" with
    | .error m =>
      (.error ("Error getting project ID and/or location from metadata server: " ++ m),
       [.metadataGet "project/project-id", .metadataGet "instance/region"])
    | .ok region =>
      (.ok (projectId, lastSegment region),
       [.metadataGet "project/project-id", .metadataGet "instance/region"])

/-- The metadata path of the token endpoint (line 59 of `server.js`). -/
def tokenPath : String := "instance/service-accounts/default/token"

/-- `getTokenFromMetadataServer()` (lines 57–80): on a 200, runs `JSON.parse`
on the body and resolves with `tokenData.access_token` — which is `undefined`
(`none`) when the parsed object lacks the field; only a `JSON.parse` throw is
turned into the parsing error.  Non-200 and transport errors reject with the
corresponding messages. -/
def getTokenFromMetadataServer (w : World) : Except String (Option String) :=
  match w.metadata tokenPath with
  | .ok data =>
    match w.jsonParse data with
    | .parseError m => .error ("Error parsing token from metadata server: " ++ m)
    | .object tok => .ok tok
  | .httpError st sm =>
    .error ("Error getting token from metadata server: " ++ toString st ++ " - " ++ sm)
  | .transportError m =>
    .error ("Error requesting token from metadata server: " ++ m)

/-- JavaScript string interpolation of a possibly-`undefined` value:
`` `Bearer ${authToken}` `` renders `undefined` as the string "undefined". -/
def jsToString (v : Option String) : String :=
  match v with
  | some s => s
  | none => "undefined"

/-- JavaScript `a || b` for an optional environment variable: `undefined`
and the empty string are falsy, any other string is truthy
(line 106 / 168: `process.env.REGION || defaultLocation`). -/
def jsOr (v : Option String) (d : String) : String :=
  match v with
  | none => d
  | some s => if s = "" then d else s

/-- The `options` object of the `/stop-job` handler (lines 112–120), with the
body `JSON.stringify({})` written at line 150. -/
def stopJobOptions (env : Env) (projectId location : String) (authToken : Option String) :
    SchedRequest :=
  { hostname := "cloudscheduler.googleapis.com"
    path := "/v1/projects/" ++ projectId ++ "/locations/" ++ location ++
      "/jobs/" ++ env.jobName ++ ":pause"
    method := "POST"
    authorization := "Bearer " ++ jsToString authToken
    contentType := "application/json"
    body := "\x7b\x7d" }

/-- The `options` object of the `/start-job` handler (lines 174–182), with
the body `JSON.stringify({})` written at line 212. -/
def startJobOptions (env : Env) (projectId location : String) (authToken : Option String) :
    SchedRequest :=
  { hostname := "cloudscheduler.googleapis.com"
    path := "/v1/projects/" ++ projectId ++ "/locations/" ++ location ++
      "/jobs/" ++ env.jobName ++ ":resume"
    method := "POST"
    authorization := "Bearer " ++ jsToString authToken
    contentType := "application/json"
    body := "\x7b\x7d" }

/-- The `POST /stop-job` handler (lines 99–160): resolve identity, apply the
`REGION` override, acquire a token, POST the pause request, and map the
outcome onto the response.  Any rejection of an earlier stage is caught and
answered with a 500 carrying the error's message. -/
def stopJobHandler (env : Env) (w : World) : HttpResponse × List Call :=
  match getProjectAndLocation w with
  | (.error m, calls) =>
    (⟨500, some "text/html", "<p>Error: Failed to pause job. Details: " ++ m ++ "</p>"⟩,
     calls)
  | (.ok (projectId, defaultLocation), calls) =>
    let location := jsOr env.region defaultLocation
    match getTokenFromMetadataServer w with
    | .error m =>
      (⟨500, some "text/html", "<p>Error: Failed to pause job. Details: " ++ m ++ "</p>"⟩,
       calls ++ [.metadataGet tokenPath])
    | .ok authToken =>
      let options := stopJobOptions env projectId location authToken
      match w.scheduler options with
      | .response st _sm apiData =>
        if st = 200 then
          (⟨200, some "text/html", "<p>Job " ++ env.jobName ++ " paused successfully.</p>"⟩,
           calls ++ [.metadataGet tokenPath, .schedulerPost options])
        else
          (⟨st, some "text/html", "<p>Error: Failed to pause job. Details: " ++ apiData ++ "</p>"⟩,
           calls ++ [.metadataGet tokenPath, .schedulerPost options])
      | .transportError m =>
        (⟨500, some "text/html", "<p>Error: Failed to pause job. Details: " ++ m ++ "</p>"⟩,
         calls ++ [.metadataGet tokenPath, .schedulerPost options])

/-- The `POST /start-job` handler (lines 161–222): the same pipeline with the
`:resume` verb and "start" wording. -/
def startJobHandler (env : Env) (w : World) : HttpResponse × List Call :=
  match getProjectAndLocation w with
  | (.error m, calls) =>
    (⟨500, some "text/html", "<p>Error: Failed to start job. Details: " ++ m ++ "</p>"⟩,
     calls)
  | (.ok (projectId, defaultLocation), calls) =>
    let location := jsOr env.region defaultLocation
    match getTokenFromMetadataServer w with
    | .error m =>
      (⟨500, some "text/html", "<p>Error: Failed to start job. Details: " ++ m ++ "</p>"⟩,
       calls ++ [.metadataGet tokenPath])
    | .ok authToken =>
      let options := startJobOptions env projectId location authToken
      match w.scheduler options with
      | .response st _sm apiData =>
        if st = 200 then
          (⟨200, some "text/html", "<p>Job " ++ env.jobName ++ " started successfully.</p>"⟩,
           calls ++ [.metadataGet tokenPath, .schedulerPost options])
        else
          (⟨st, some "text/html", "<p>Error: Failed to start job. Details: " ++ apiData ++ "</p>"⟩,
           calls ++ [.metadataGet tokenPath, .schedulerPost options])
      | .transportError m =>
        (⟨500, some "text/html", "<p>Error: Failed to start job. Details: " ++ m ++ "</p>"⟩,
         calls ++ [.metadataGet tokenPath, .schedulerPost options])

/-- `url.parse(req.url, true).pathname`: the request-target up to the query
string or fragment. -/
def pathnameOf (u : String) : String :=
  String.mk (u.data.takeWhile (fun c => c != '?' && c != '#'))

/-- The top-level request handler (lines 83–227): `/` serves `index.html`
(for any method), `POST /stop-job` and `POST /start-job` run the pipelines,
everything else is answered 404. -/
def requestHandler (env : Env) (w : World) (req : HttpRequest) : HttpResponse × List Call :=
  let pathname := pathnameOf req.url
  if pathname = "/" then
    match w.indexHtml with
    | .error _ => (⟨500, none, "Error loading index.html"⟩, [])
    | .ok data => (⟨200, some "text/html", data⟩, [])
  else if pathname = "/stop-job" ∧ req.method = "POST" then
    stopJobHandler env w
  else if pathname = "/start-job" ∧ req.method = "POST" then
    startJobHandler env w
  else
    (⟨404, none, "Not Found"⟩, [])

/-- The scheduler POSTs contained in a trace, in order. -/
def schedCalls (calls : List Call) : List SchedRequest :=
  calls.filterMap (fun c =>
    match c with
    | .schedulerPost r => some r
    | .metadataGet _ => none)

/-! ## Concrete environments and worlds used to instantiate the theorems -/

/-- An environment with `JOB_NAME=myjob` and `REGION` unset. -/
def envA : Env := ⟨"myjob", none⟩

/-- An environment with `JOB_NAME=myjob` and `REGION` set to the empty string. -/
def envEmptyRegion : Env := ⟨"myjob", some ""⟩

/-- An environment with `JOB_NAME=myjob` and `REGION=europe-west1`. -/
def envRegion : Env := ⟨"myjob", some "europe-west1"⟩

/-- A metadata service answering every lookup with a 200: a project id, a
structured region descriptor, and a JSON object body for the token path. -/
def mdOk : String → MetaResult := fun p =>
  if p = "project/project-id" then .ok "proj-1"
  else if p = "instance/region" then .ok "projects/123/regions/us-central1"
  else .ok "\x7b\x7d"

/-- A healthy world: metadata up, token body parses with an access token,
scheduler answers 200. -/
def wGood : World :=
  { metadata := mdOk
    jsonParse := fun _ => .object (some "tok-123")
    scheduler := fun _ => .response 200 "OK" ""
    indexHtml := .ok "<html>index</html>" }

/-- Like `wGood`, but the token body parses as JSON *lacking* the
`access_token` field (e.g. the literal body `\x7b\x7d`). -/
def wMissingField : World :=
  { metadata := mdOk
    jsonParse := fun _ => .object none
    scheduler := fun _ => .response 200 "OK" ""
    indexHtml := .ok "<html>index</html>" }

/-- Like `wGood`, but the token body does not parse as JSON at all. -/
def wParseErr : World :=
  { metadata := mdOk
    jsonParse := fun _ => .parseError "Unexpected end of JSON input"
    scheduler := fun _ => .response 200 "OK" ""
    indexHtml := .ok "<html>index</html>" }

/-- Like `wGood`, but the scheduler answers 403 with a diagnostic body. -/
def wForbidden : World :=
  { metadata := mdOk
    jsonParse := fun _ => .object (some "tok-123")
    scheduler := fun _ => .response 403 "Forbidden"
      "\x7b\"error\":\"permission denied\"\x7d"
    indexHtml := .ok "<html>index</html>" }

/-- Like `wGood`, but the metadata region lookup returns a 200 with an empty
body. -/
def wEmptyRegion : World :=
  { metadata := fun p =>
      if p = "project/project-id" then .ok "proj-1"
      else if p = "instance/region" then .ok ""
      else .ok "\x7b\x7d"
    jsonParse := fun _ => .object (some "tok-123")
    scheduler := fun _ => .response 200 "OK" ""
    indexHtml := .ok "<html>index</html>" }

/-- A world whose metadata service is entirely unreachable. -/
def wMetaDown : World :=
  { metadata := fun _ => .transportError "connect ECONNREFUSED"
    jsonParse := fun _ => .object (some "tok-123")
    scheduler := fun _ => .response 200 "OK" ""
    indexHtml := .ok "<html>index</html>" }

/-- Like `wGood`, but the scheduler API call fails at the transport level. -/
def wSchedDown : World :=
  { metadata := mdOk
    jsonParse := fun _ => .object (some "tok-123")
    scheduler := fun _ => .transportError "getaddrinfo ENOTFOUND"
    indexHtml := .ok "<html>index</html>" }

/-! ## Correctness of the split-and-pop region extraction -/

theorem jsSplit_no_sep (sep : Char) (l : List Char) (h : sep ∉ l) :
    jsSplit sep l = (l, []) := by
  induction l with
  | nil => rfl
  | cons c cs ih =>
    simp only [List.mem_cons, not_or] at h
    simp [jsSplit, ih h.2, Ne.symm h.1]

theorem jsSplit_snd_ne_nil (sep : Char) (l : List Char) (h : sep ∈ l) :
    (jsSplit sep l).2 ≠ [] := by
  induction l with
  | nil => cases h
  | cons c cs ih =>
    by_cases hc : c = sep
    · simp [jsSplit, hc]
    · rcases List.mem_cons.mp h with h1 | h2
      · exact absurd h1.symm hc
      · simp only [jsSplit, if_neg hc]
        exact ih h2

/-- A string with no separator splits into itself: `pop` returns it whole. -/
theorem splitPop_no_sep (sep : Char) (l : List Char) (h : sep ∉ l) :
    splitPop sep l = l := by
  simp [splitPop, jsSplit_no_sep sep l h]

/-- `split(sep).pop()` on anything ending in `sep :: t` with separator-free
`t` yields exactly `t`: the trailing segment after the last separator. -/
theorem splitPop_append (sep : Char) (s t : List Char) (h : sep ∉ t) :
    splitPop sep (s ++ sep :: t) = t := by
  induction s with
  | nil =>
    simp only [List.nil_append, splitPop, jsSplit, if_pos rfl]
    simp [jsSplit_no_sep sep t h]
  | cons c cs ih =>
    simp only [List.cons_append, splitPop, jsSplit]
    have hmem : sep ∈ cs ++ sep :: t := by simp
    have hne : (jsSplit sep (cs ++ sep :: t)).2 ≠ [] := jsSplit_snd_ne_nil sep _ hmem
    by_cases hc : c = sep
    · simp only [if_pos hc, List.getLastD_cons]
      simpa [splitPop] using ih
    · simp only [if_neg hc]
      rcases hx : (jsSplit sep (cs ++ sep :: t)).2 with _ | ⟨a, as⟩
      · exact absurd hx hne
      · have := ih
        simp only [splitPop, hx, List.getLastD_cons] at this ⊢
        exact this

/-- `lastSegment` on any string of the shape `s ++ "/" ++ t` with slash-free
`t` is exactly `t`: the trailing segment after the last '/'. -/
theorem lastSegment_append (s t : String) (h : '/' ∉ t.data) :
    lastSegment (s ++ "/" ++ t) = t := by
  have hd : (s ++ "/" ++ t).data = s.data ++ '/' :: t.data := by
    simp [String.data_append]
  rw [lastSegment, hd, splitPop_append _ _ _ h]

/-- `lastSegment` on a slash-free string (including the empty string) is the
string itself: nothing is rejected. -/
theorem lastSegment_no_slash (t : String) (h : '/' ∉ t.data) :
    lastSegment t = t := by
  rw [lastSegment, splitPop_no_sep _ _ h]

/-! ## Unfolding lemmas for the three pipeline stages -/

theorem getProjectAndLocation_ok (w : World) (pid r : String)
    (hp : w.metadata "project/project-id" = .ok pid)
    (hr : w.metadata "instance/region" = .ok r) :
    getProjectAndLocation w =
      (.ok (pid, lastSegment r),
       [.metadataGet "project/project-id", .metadataGet "instance/region"]) := by
  simp [getProjectAndLocation, getMetadata, hp, hr]

theorem getProjectAndLocation_proj_error (w : World) (m : String)
    (hp : getMetadata w "project/project-id" = .error m) :
    getProjectAndLocation w =
      (.error ("Error getting project ID and/or location from metadata server: " ++ m),
       [.metadataGet "project/project-id"]) := by
  simp [getProjectAndLocation, hp]

theorem getProjectAndLocation_trace (w : World) :
    (getProjectAndLocation w).2 = [.metadataGet "project/project-id"] ∨
    (getProjectAndLocation w).2 =
      [.metadataGet "project/project-id", .metadataGet "instance/region"] := by
  unfold getProjectAndLocation
  rcases h1 : getMetadata w "project/project-id" with m | pid
  · simp
  · rcases h2 : getMetadata w "instance/region" with m | r <;> simp

theorem getTokenFromMetadataServer_object (w : World) (body : String) (tok : Option String)
    (ht : w.metadata tokenPath = .ok body) (hj : w.jsonParse body = .object tok) :
    getTokenFromMetadataServer w = .ok tok := by
  simp [getTokenFromMetadataServer, ht, hj]

theorem getTokenFromMetadataServer_parseError (w : World) (body m : String)
    (ht : w.metadata tokenPath = .ok body) (hj : w.jsonParse body = .parseError m) :
    getTokenFromMetadataServer w =
      .error ("Error parsing token from metadata server: " ++ m) := by
  simp [getTokenFromMetadataServer, ht, hj]

/-! ## Unfolding lemmas for the two handlers -/

theorem stopJobHandler_resolve_error (env : Env) (w : World) (m : String) (calls : List Call)
    (h : getProjectAndLocation w = (.error m, calls)) :
    stopJobHandler env w =
      (⟨500, some "text/html", "<p>Error: Failed to pause job. Details: " ++ m ++ "</p>"⟩,
       calls) := by
  simp [stopJobHandler, h]

theorem stopJobHandler_token_error (env : Env) (w : World)
    (pid loc m : String) (calls : List Call)
    (hres : getProjectAndLocation w = (.ok (pid, loc), calls))
    (htok : getTokenFromMetadataServer w = .error m) :
    stopJobHandler env w =
      (⟨500, some "text/html", "<p>Error: Failed to pause job. Details: " ++ m ++ "</p>"⟩,
       calls ++ [.metadataGet tokenPath]) := by
  simp [stopJobHandler, hres, htok]

theorem stopJobHandler_response (env : Env) (w : World)
    (pid loc sm b : String) (calls : List Call) (tok : Option String) (st : Nat)
    (hres : getProjectAndLocation w = (.ok (pid, loc), calls))
    (htok : getTokenFromMetadataServer w = .ok tok)
    (hs : w.scheduler (stopJobOptions env pid (jsOr env.region loc) tok) = .response st sm b) :
    stopJobHandler env w =
      ((if st = 200 then
          ⟨200, some "text/html", "<p>Job " ++ env.jobName ++ " paused successfully.</p>"⟩
        else
          ⟨st, some "text/html", "<p>Error: Failed to pause job. Details: " ++ b ++ "</p>"⟩),
       calls ++ [.metadataGet tokenPath,
         .schedulerPost (stopJobOptions env pid (jsOr env.region loc) tok)]) := by
  simp only [stopJobHandler, hres, htok, hs]
  split <;> rfl

theorem stopJobHandler_transport (env : Env) (w : World)
    (pid loc m : String) (calls : List Call) (tok : Option String)
    (hres : getProjectAndLocation w = (.ok (pid, loc), calls))
    (htok : getTokenFromMetadataServer w = .ok tok)
    (hs : w.scheduler (stopJobOptions env pid (jsOr env.region loc) tok) = .transportError m) :
    stopJobHandler env w =
      (⟨500, some "text/html", "<p>Error: Failed to pause job. Details: " ++ m ++ "</p>"⟩,
       calls ++ [.metadataGet tokenPath,
         .schedulerPost (stopJobOptions env pid (jsOr env.region loc) tok)]) := by
  simp only [stopJobHandler, hres, htok, hs]

theorem startJobHandler_resolve_error (env : Env) (w : World) (m : String) (calls : List Call)
    (h : getProjectAndLocation w = (.error m, calls)) :
    startJobHandler env w =
      (⟨500, some "text/html", "<p>Error: Failed to start job. Details: " ++ m ++ "</p>"⟩,
       calls) := by
  simp [startJobHandler, h]

theorem startJobHandler_token_error (env : Env) (w : World)
    (pid loc m : String) (calls : List Call)
    (hres : getProjectAndLocation w = (.ok (pid, loc), calls))
    (htok : getTokenFromMetadataServer w = .error m) :
    startJobHandler env w =
      (⟨500, some "text/html", "<p>Error: Failed to start job. Details: " ++ m ++ "</p>"⟩,
       calls ++ [.metadataGet tokenPath]) := by
  simp [startJobHandler, hres, htok]

theorem startJobHandler_response (env : Env) (w : World)
    (pid loc sm b : String) (calls : List Call) (tok : Option String) (st : Nat)
    (hres : getProjectAndLocation w = (.ok (pid, loc), calls))
    (htok : getTokenFromMetadataServer w = .ok tok)
    (hs : w.scheduler (startJobOptions env pid (jsOr env.region loc) tok) = .response st sm b) :
    startJobHandler env w =
      ((if st = 200 then
          ⟨200, some "text/html", "<p>Job " ++ env.jobName ++ " started successfully.</p>"⟩
        else
          ⟨st, some "text/html", "<p>Error: Failed to start job. Details: " ++ b ++ "</p>"⟩),
       calls ++ [.metadataGet tokenPath,
         .schedulerPost (startJobOptions env pid (jsOr env.region loc) tok)]) := by
  simp only [startJobHandler, hres, htok, hs]
  split <;> rfl

theorem startJobHandler_transport (env : Env) (w : World)
    (pid loc m : String) (calls : List Call) (tok : Option String)
    (hres : getProjectAndLocation w = (.ok (pid, loc), calls))
    (htok : getTokenFromMetadataServer w = .ok tok)
    (hs : w.scheduler (startJobOptions env pid (jsOr env.region loc) tok) = .transportError m) :
    startJobHandler env w =
      (⟨500, some "text/html", "<p>Error: Failed to start job. Details: " ++ m ++ "</p>"⟩,
       calls ++ [.metadataGet tokenPath,
         .schedulerPost (startJobOptions env pid (jsOr env.region loc) tok)]) := by
  simp only [startJobHandler, hres, htok, hs]

/-- Once resolution and token acquisition have succeeded, the trace of the
`/stop-job` pipeline is fixed, whatever the scheduler answers. -/
theorem stopJobHandler_trace (env : Env) (w : World)
    (pid loc : String) (calls : List Call) (tok : Option String)
    (hres : getProjectAndLocation w = (.ok (pid, loc), calls))
    (htok : getTokenFromMetadataServer w = .ok tok) :
    (stopJobHandler env w).2 =
      calls ++ [.metadataGet tokenPath,
        .schedulerPost (stopJobOptions env pid (jsOr env.region loc) tok)] := by
  cases hcase : w.scheduler (stopJobOptions env pid (jsOr env.region loc) tok) with
  | response st sm b =>
    rw [stopJobHandler_response env w pid loc sm b calls tok st hres htok hcase]
  | transportError m =>
    rw [stopJobHandler_transport env w pid loc m calls tok hres htok hcase]

/-- Once resolution and token acquisition have succeeded, the trace of the
`/start-job` pipeline is fixed, whatever the scheduler answers. -/
theorem startJobHandler_trace (env : Env) (w : World)
    (pid loc : String) (calls : List Call) (tok : Option String)
    (hres : getProjectAndLocation w = (.ok (pid, loc), calls))
    (htok : getTokenFromMetadataServer w = .ok tok) :
    (startJobHandler env w).2 =
      calls ++ [.metadataGet tokenPath,
        .schedulerPost (startJobOptions env pid (jsOr env.region loc) tok)] := by
  cases hcase : w.scheduler (startJobOptions env pid (jsOr env.region loc) tok) with
  | response st sm b =>
    rw [startJobHandler_response env w pid loc sm b calls tok st hres htok hcase]
  | transportError m =>
    rw [startJobHandler_transport env w pid loc m calls tok hres htok hcase]

/-! ## The claims -/

/-- C10: the two metadata lookups of identity resolution are sequential —
when the project-id lookup fails, resolution fails immediately with only the
project-id GET in the trace, and the region lookup is never issued. -/
theorem C10_sequential_lookups (w : World) (m : String)
    (hp : getMetadata w "project/project-id" = .error m) :
    getProjectAndLocation w =
      (.error ("Error getting project ID and/or location from metadata server: " ++ m),
       [.metadataGet "project/project-id"]) ∧
    Call.metadataGet "instance/region" ∉ (getProjectAndLocation w).2 := by
  have h := getProjectAndLocation_proj_error w m hp
  refine ⟨h, ?_⟩
  rw [h]
  show Call.metadataGet "instance/region" ∉ [Call.metadataGet "project/project-id"]
  decide

/-- C10 witness: with the metadata service unreachable, resolution fails
after the single project-id call and no region call appears in the trace. -/
theorem C10_witness :
    getProjectAndLocation wMetaDown =
      (.error ("Error getting project ID and/or location from metadata server: " ++
        ("Error requesting metadata: " ++ "connect ECONNREFUSED")),
       [.metadataGet "project/project-id"]) ∧
    Call.metadataGet "instance/region" ∉ (getProjectAndLocation wMetaDown).2 := by
  exact C10_sequential_lookups wMetaDown
    ("Error requesting metadata: " ++ "connect ECONNREFUSED") rfl

/-- C2 counterexample: a 200 region lookup with an *empty* body is not
surfaced as a resolution failure — resolution succeeds silently with the
empty string as the location. -/
theorem C2_counterexample :
    (getProjectAndLocation wEmptyRegion).1 = .ok ("proj-1", "") ∧
    (∀ m, (getProjectAndLocation wEmptyRegion).1 ≠ .error m) := by
  refine ⟨rfl, ?_⟩
  intro m h
  rw [show (getProjectAndLocation wEmptyRegion).1 = .ok ("proj-1", "") from rfl] at h
  cases h

/-- C2 (amended): identity resolution extracts exactly the trailing segment
after the last '/' of the region descriptor (so
`projects/123/regions/us-central1` yields `us-central1`, and a slash-free
string is returned whole); malformed or empty region strings are NOT
rejected — whenever both lookups return 200, resolution succeeds with that
trailing segment, empty or not. -/
theorem C2_region_extraction (w : World) (pid r s t : String)
    (hp : w.metadata "project/project-id" = .ok pid)
    (hr : w.metadata "instance/region" = .ok r)
    (h : '/' ∉ t.data) :
    getProjectAndLocation w =
      (.ok (pid, lastSegment r),
       [.metadataGet "project/project-id", .metadataGet "instance/region"]) ∧
    lastSegment (s ++ "/" ++ t) = t ∧
    lastSegment "projects/123/regions/us-central1" = "us-central1" ∧
    (∀ u : String, '/' ∉ u.data → lastSegment u = u) :=
  ⟨getProjectAndLocation_ok w pid r hp hr, lastSegment_append s t h, rfl,
   fun u hu => lastSegment_no_slash u hu⟩

/-- C2 witness: the extraction evaluated on the spec's own example. -/
theorem C2_witness :
    getProjectAndLocation wGood =
      (.ok ("proj-1", lastSegment "projects/123/regions/us-central1"),
       [.metadataGet "project/project-id", .metadataGet "instance/region"]) ∧
    lastSegment ("projects/123/regions" ++ "/" ++ "us-central1") = "us-central1" ∧
    lastSegment "projects/123/regions/us-central1" = "us-central1" ∧
    (∀ u : String, '/' ∉ u.data → lastSegment u = u) :=
  C2_region_extraction wGood "proj-1" "projects/123/regions/us-central1"
    "projects/123/regions" "us-central1" rfl rfl (by decide)

/-- C6 counterexample: a POST to '/' is *not* answered 404 — the
`pathname === '/'` branch serves `index.html` for every method. -/
theorem C6_counterexample :
    requestHandler envA wGood ⟨"POST", "/"⟩ =
      (⟨200, some "text/html", "<html>index</html>"⟩, []) ∧
    (200 : Nat) ≠ 404 :=
  ⟨rfl, by decide⟩

/-- C6 (amended): any request whose pathname is none of '/', '/stop-job',
'/start-job' is answered 404 regardless of method, and a non-POST method on
'/stop-job' or '/start-job' is answered 404; but '/' is served the static
page for *every* method, not only GET. -/
theorem C6_routing (env : Env) (w : World) (m u : String) :
    ((pathnameOf u ≠ "/" ∧ ¬(pathnameOf u = "/stop-job" ∧ m = "POST") ∧
      ¬(pathnameOf u = "/start-job" ∧ m = "POST")) →
      requestHandler env w ⟨m, u⟩ = (⟨404, none, "Not Found"⟩, [])) ∧
    (∀ page, w.indexHtml = .ok page →
      requestHandler env w ⟨m, "/"⟩ = (⟨200, some "text/html", page⟩, [])) := by
  constructor
  · rintro ⟨h1, h2, h3⟩
    simp [requestHandler, h1, h2, h3]
  · intro page hpage
    have hroot : pathnameOf "/" = "/" := rfl
    simp [requestHandler, hroot, hpage]

/-- C6 witness: `DELETE /foo` is answered 404, and `POST /` is served the
static page. -/
theorem C6_witness :
    requestHandler envA wGood ⟨"DELETE", "/foo"⟩ = (⟨404, none, "Not Found"⟩, []) ∧
    requestHandler envA wGood ⟨"POST", "/"⟩ =
      (⟨200, some "text/html", "<html>index</html>"⟩, []) :=
  ⟨(C6_routing envA wGood "DELETE" "/foo").1 (by decide),
   (C6_routing envA wGood "POST" "/").2 "<html>index</html>" rfl⟩

/-- C1 counterexample: a 200 token response whose body parses as JSON but
lacks the `access_token` field does *not* fail token acquisition: it resolves
`undefined`, both endpoints answer 200, and the scheduler *is* called — with
the header `Authorization: Bearer undefined`. -/
theorem C1_counterexample :
    getTokenFromMetadataServer wMissingField = .ok none ∧
    (stopJobHandler envA wMissingField).1.statusCode = 200 ∧
    schedCalls (stopJobHandler envA wMissingField).2 =
      [stopJobOptions envA "proj-1" "us-central1" none] ∧
    (stopJobOptions envA "proj-1" "us-central1" none).authorization = "Bearer undefined" ∧
    (startJobHandler envA wMissingField).1.statusCode = 200 :=
  ⟨rfl, rfl, rfl, rfl, rfl⟩

/-- C1 (amended): only a token body that fails `JSON.parse` makes token
acquisition fail (with the parse-error message) and the endpoints answer 500
without calling the scheduler; a body that parses as JSON but *lacks* the
`access_token` field resolves `undefined`, and both endpoints proceed to call
the scheduler with the header `Authorization: Bearer undefined`. -/
theorem C1_token_missing_field (env : Env) (w : World) (body pid r : String)
    (ht : w.metadata tokenPath = .ok body)
    (hp : w.metadata "project/project-id" = .ok pid)
    (hr : w.metadata "instance/region" = .ok r) :
    (∀ m, w.jsonParse body = .parseError m →
      getTokenFromMetadataServer w =
        .error ("Error parsing token from metadata server: " ++ m) ∧
      (stopJobHandler env w).1.statusCode = 500 ∧
      schedCalls (stopJobHandler env w).2 = [] ∧
      (startJobHandler env w).1.statusCode = 500 ∧
      schedCalls (startJobHandler env w).2 = []) ∧
    (w.jsonParse body = .object none →
      getTokenFromMetadataServer w = .ok none ∧
      schedCalls (stopJobHandler env w).2 =
        [stopJobOptions env pid (jsOr env.region (lastSegment r)) none] ∧
      (stopJobOptions env pid (jsOr env.region (lastSegment r)) none).authorization =
        "Bearer undefined" ∧
      schedCalls (startJobHandler env w).2 =
        [startJobOptions env pid (jsOr env.region (lastSegment r)) none]) := by
  have hres := getProjectAndLocation_ok w pid r hp hr
  constructor
  · intro m hj
    have htok := getTokenFromMetadataServer_parseError w body m ht hj
    have h1 := stopJobHandler_token_error env w pid (lastSegment r)
      ("Error parsing token from metadata server: " ++ m) _ hres htok
    have h2 := startJobHandler_token_error env w pid (lastSegment r)
      ("Error parsing token from metadata server: " ++ m) _ hres htok
    refine ⟨htok, ?_, ?_, ?_, ?_⟩
    · rw [h1]
    · rw [h1]; simp [schedCalls, tokenPath]
    · rw [h2]
    · rw [h2]; simp [schedCalls, tokenPath]
  · intro hj
    have htok := getTokenFromMetadataServer_object w body none ht hj
    have h1 := stopJobHandler_trace env w pid (lastSegment r) _ none hres htok
    have h2 := startJobHandler_trace env w pid (lastSegment r) _ none hres htok
    refine ⟨htok, ?_, rfl, ?_⟩
    · rw [h1]; simp [schedCalls, tokenPath]
    · rw [h2]; simp [schedCalls, tokenPath]

/-- C1 witness: a world where resolution succeeds and the token body is the
unparsable empty string — acquisition fails with the parse error, both
endpoints answer 500, and no scheduler call is issued. -/
theorem C1_witness :
    getTokenFromMetadataServer wParseErr =
      .error ("Error parsing token from metadata server: " ++
        "Unexpected end of JSON input") ∧
    (stopJobHandler envA wParseErr).1.statusCode = 500 ∧
    schedCalls (stopJobHandler envA wParseErr).2 = [] ∧
    (startJobHandler envA wParseErr).1.statusCode = 500 ∧
    schedCalls (startJobHandler envA wParseErr).2 = [] := by
  exact (C1_token_missing_field envA wParseErr "\x7b\x7d" "proj-1"
    "projects/123/regions/us-central1" rfl rfl rfl).1
    "Unexpected end of JSON input" rfl

/-- C3: whenever the scheduler call completes with a status code and body,
a 200 yields a 200 response with the success message naming the configured
job, and any other status is passed through as the response status with the
upstream body embedded verbatim in the message — for both endpoints. -/
theorem C3_upstream_mapping (env : Env) (w : World)
    (pid r b b2 sm sm2 : String) (tok : Option String) (st st2 : Nat)
    (hp : w.metadata "project/project-id" = .ok pid)
    (hr : w.metadata "instance/region" = .ok r)
    (htok : getTokenFromMetadataServer w = .ok tok)
    (hstop : w.scheduler (stopJobOptions env pid (jsOr env.region (lastSegment r)) tok)
      = .response st sm b)
    (hstart : w.scheduler (startJobOptions env pid (jsOr env.region (lastSegment r)) tok)
      = .response st2 sm2 b2) :
    (st = 200 → (stopJobHandler env w).1 =
      ⟨200, some "text/html", "<p>Job " ++ env.jobName ++ " paused successfully.</p>"⟩) ∧
    (st ≠ 200 → (stopJobHandler env w).1 =
      ⟨st, some "text/html", "<p>Error: Failed to pause job. Details: " ++ b ++ "</p>"⟩) ∧
    (st2 = 200 → (startJobHandler env w).1 =
      ⟨200, some "text/html", "<p>Job " ++ env.jobName ++ " started successfully.</p>"⟩) ∧
    (st2 ≠ 200 → (startJobHandler env w).1 =
      ⟨st2, some "text/html", "<p>Error: Failed to start job. Details: " ++ b2 ++ "</p>"⟩) := by
  have hres := getProjectAndLocation_ok w pid r hp hr
  have h1 := stopJobHandler_response env w pid (lastSegment r) sm b _ tok st hres htok hstop
  have h2 := startJobHandler_response env w pid (lastSegment r) sm2 b2 _ tok st2 hres htok hstart
  refine ⟨?_, ?_, ?_, ?_⟩ <;> intro hst
  · rw [h1]; simp [hst]
  · rw [h1]; simp [hst]
  · rw [h2]; simp [hst]
  · rw [h2]; simp [hst]

/-- C3 witness: a 403 upstream with the diagnostic body is answered 403 with
that body visible in the response, and a 200 upstream is answered with the
success message naming the job. -/
theorem C3_witness :
    (stopJobHandler envA wForbidden).1 =
      ⟨403, some "text/html",
       "<p>Error: Failed to pause job. Details: " ++
         "\x7b\"error\":\"permission denied\"\x7d" ++ "</p>"⟩ ∧
    (stopJobHandler envA wGood).1 =
      ⟨200, some "text/html", "<p>Job " ++ "myjob" ++ " paused successfully.</p>"⟩ := by
  constructor
  · exact (C3_upstream_mapping envA wForbidden "proj-1" "projects/123/regions/us-central1"
      "\x7b\"error\":\"permission denied\"\x7d" "\x7b\"error\":\"permission denied\"\x7d"
      "Forbidden" "Forbidden" (some "tok-123") 403 403 rfl rfl rfl rfl rfl).2.1 (by decide)
  · exact (C3_upstream_mapping envA wGood "proj-1" "projects/123/regions/us-central1"
      "" "" "OK" "OK" (some "tok-123") 200 200 rfl rfl rfl rfl rfl).1 rfl

/-- C4 counterexample: with `REGION` *set* to the empty string, the location
used in the scheduler URL is the metadata-resolved one, not the `REGION`
value — so "if REGION is set, the REGION value is used" fails at `""`. -/
theorem C4_counterexample :
    envEmptyRegion.region = some "" ∧
    schedCalls (stopJobHandler envEmptyRegion wGood).2 =
      [stopJobOptions envEmptyRegion "proj-1" "us-central1" (some "tok-123")] ∧
    (stopJobOptions envEmptyRegion "proj-1" "us-central1" (some "tok-123")).path =
      "/v1/projects/proj-1/locations/us-central1/jobs/myjob:pause" ∧
    ("us-central1" : String) ≠ "" :=
  ⟨rfl, rfl, rfl, by decide⟩

/-- C4 (amended): a `REGION` set to a non-empty string always takes
precedence over the metadata-resolved location in the scheduler URL, for both
endpoints; when `REGION` is unset — or set to the empty string, which the
`||` truthiness test treats as absent — the metadata-resolved location is
used. -/
theorem C4_region_precedence (env : Env) (w : World) (pid r : String) (tok : Option String)
    (hp : w.metadata "project/project-id" = .ok pid)
    (hr : w.metadata "instance/region" = .ok r)
    (htok : getTokenFromMetadataServer w = .ok tok) :
    (∀ s, env.region = some s → s ≠ "" →
      schedCalls (stopJobHandler env w).2 = [stopJobOptions env pid s tok] ∧
      schedCalls (startJobHandler env w).2 = [startJobOptions env pid s tok]) ∧
    (env.region = none →
      schedCalls (stopJobHandler env w).2 = [stopJobOptions env pid (lastSegment r) tok] ∧
      schedCalls (startJobHandler env w).2 = [startJobOptions env pid (lastSegment r) tok]) ∧
    (env.region = some "" →
      schedCalls (stopJobHandler env w).2 = [stopJobOptions env pid (lastSegment r) tok] ∧
      schedCalls (startJobHandler env w).2 = [startJobOptions env pid (lastSegment r) tok]) := by
  have hres := getProjectAndLocation_ok w pid r hp hr
  have h1 := stopJobHandler_trace env w pid (lastSegment r) _ tok hres htok
  have h2 := startJobHandler_trace env w pid (lastSegment r) _ tok hres htok
  refine ⟨?_, ?_, ?_⟩
  · intro s hs hne
    have hjs : jsOr env.region (lastSegment r) = s := by
      rw [hs]; simp [jsOr, hne]
    rw [hjs] at h1 h2
    constructor
    · rw [h1]; simp [schedCalls, tokenPath]
    · rw [h2]; simp [schedCalls, tokenPath]
  · intro hs
    have hjs : jsOr env.region (lastSegment r) = lastSegment r := by
      rw [hs]; simp [jsOr]
    rw [hjs] at h1 h2
    constructor
    · rw [h1]; simp [schedCalls, tokenPath]
    · rw [h2]; simp [schedCalls, tokenPath]
  · intro hs
    have hjs : jsOr env.region (lastSegment r) = lastSegment r := by
      rw [hs]; simp [jsOr]
    rw [hjs] at h1 h2
    constructor
    · rw [h1]; simp [schedCalls, tokenPath]
    · rw [h2]; simp [schedCalls, tokenPath]

/-- C4 witness: with `REGION=europe-west1`, both scheduler calls use
`europe-west1`, not the metadata-resolved `us-central1`. -/
theorem C4_witness :
    schedCalls (stopJobHandler envRegion wGood).2 =
      [stopJobOptions envRegion "proj-1" "europe-west1" (some "tok-123")] ∧
    schedCalls (startJobHandler envRegion wGood).2 =
      [startJobOptions envRegion "proj-1" "europe-west1" (some "tok-123")] := by
  exact (C4_region_precedence envRegion wGood "proj-1" "projects/123/regions/us-central1"
    (some "tok-123") rfl rfl rfl).1 "europe-west1" rfl (by decide)

/-- C9: `REGION` set to the empty string is treated as absent — the
truthiness test of `||` rejects it and the metadata-resolved location is used
in the scheduler URL for both endpoints. -/
theorem C9_empty_region_override (env : Env) (w : World) (pid r : String) (tok : Option String)
    (hp : w.metadata "project/project-id" = .ok pid)
    (hr : w.metadata "instance/region" = .ok r)
    (htok : getTokenFromMetadataServer w = .ok tok)
    (hreg : env.region = some "") :
    jsOr env.region (lastSegment r) = lastSegment r ∧
    schedCalls (stopJobHandler env w).2 = [stopJobOptions env pid (lastSegment r) tok] ∧
    schedCalls (startJobHandler env w).2 = [startJobOptions env pid (lastSegment r) tok] := by
  have hres := getProjectAndLocation_ok w pid r hp hr
  have h1 := stopJobHandler_trace env w pid (lastSegment r) _ tok hres htok
  have h2 := startJobHandler_trace env w pid (lastSegment r) _ tok hres htok
  have hjs : jsOr env.region (lastSegment r) = lastSegment r := by
    rw [hreg]; simp [jsOr]
  rw [hjs] at h1 h2
  refine ⟨hjs, ?_, ?_⟩
  · rw [h1]; simp [schedCalls, tokenPath]
  · rw [h2]; simp [schedCalls, tokenPath]

/-- C9 witness: with `REGION` set to the empty string, the scheduler calls
use the metadata-resolved `us-central1`. -/
theorem C9_witness :
    jsOr envEmptyRegion.region (lastSegment "projects/123/regions/us-central1") =
      lastSegment "projects/123/regions/us-central1" ∧
    schedCalls (stopJobHandler envEmptyRegion wGood).2 =
      [stopJobOptions envEmptyRegion "proj-1"
        (lastSegment "projects/123/regions/us-central1") (some "tok-123")] ∧
    schedCalls (startJobHandler envEmptyRegion wGood).2 =
      [startJobOptions envEmptyRegion "proj-1"
        (lastSegment "projects/123/regions/us-central1") (some "tok-123")] := by
  exact C9_empty_region_override envEmptyRegion wGood "proj-1"
    "projects/123/regions/us-central1" (some "tok-123") rfl rfl rfl rfl

/-- C5: after successful resolution and token acquisition, each endpoint
issues exactly one scheduler POST, to `cloudscheduler.googleapis.com`, at
`/v1/projects/{projectId}/locations/{location}/jobs/{jobName}:pause`
(`:resume` for `/start-job`), with `Authorization: Bearer {token}`,
`Content-Type: application/json`, and the empty JSON object as body. -/
theorem C5_request_shape (env : Env) (w : World) (pid r tok : String)
    (hp : w.metadata "project/project-id" = .ok pid)
    (hr : w.metadata "instance/region" = .ok r)
    (htok : getTokenFromMetadataServer w = .ok (some tok)) :
    schedCalls (stopJobHandler env w).2 =
      [stopJobOptions env pid (jsOr env.region (lastSegment r)) (some tok)] ∧
    schedCalls (startJobHandler env w).2 =
      [startJobOptions env pid (jsOr env.region (lastSegment r)) (some tok)] ∧
    (stopJobOptions env pid (jsOr env.region (lastSegment r)) (some tok)) =
      { hostname := "cloudscheduler.googleapis.com"
        path := "/v1/projects/" ++ pid ++ "/locations/" ++
          jsOr env.region (lastSegment r) ++ "/jobs/" ++ env.jobName ++ ":pause"
        method := "POST"
        authorization := "Bearer " ++ tok
        contentType := "application/json"
        body := "\x7b\x7d" } ∧
    (startJobOptions env pid (jsOr env.region (lastSegment r)) (some tok)) =
      { hostname := "cloudscheduler.googleapis.com"
        path := "/v1/projects/" ++ pid ++ "/locations/" ++
          jsOr env.region (lastSegment r) ++ "/jobs/" ++ env.jobName ++ ":resume"
        method := "POST"
        authorization := "Bearer " ++ tok
        contentType := "application/json"
        body := "\x7b\x7d" } := by
  have hres := getProjectAndLocation_ok w pid r hp hr
  have h1 := stopJobHandler_trace env w pid (lastSegment r) _ (some tok) hres htok
  have h2 := startJobHandler_trace env w pid (lastSegment r) _ (some tok) hres htok
  refine ⟨?_, ?_, rfl, rfl⟩
  · rw [h1]; simp [schedCalls, tokenPath]
  · rw [h2]; simp [schedCalls, tokenPath]

/-- C5 witness: the concrete pause request issued in the healthy world. -/
theorem C5_witness :
    schedCalls (stopJobHandler envA wGood).2 =
      [stopJobOptions envA "proj-1"
        (jsOr envA.region (lastSegment "projects/123/regions/us-central1"))
        (some "tok-123")] ∧
    schedCalls (startJobHandler envA wGood).2 =
      [startJobOptions envA "proj-1"
        (jsOr envA.region (lastSegment "projects/123/regions/us-central1"))
        (some "tok-123")] ∧
    (stopJobOptions envA "proj-1"
        (jsOr envA.region (lastSegment "projects/123/regions/us-central1"))
        (some "tok-123")) =
      { hostname := "cloudscheduler.googleapis.com"
        path := "/v1/projects/" ++ "proj-1" ++ "/locations/" ++
          jsOr envA.region (lastSegment "projects/123/regions/us-central1") ++
          "/jobs/" ++ envA.jobName ++ ":pause"
        method := "POST"
        authorization := "Bearer " ++ "tok-123"
        contentType := "application/json"
        body := "\x7b\x7d" } ∧
    (startJobOptions envA "proj-1"
        (jsOr envA.region (lastSegment "projects/123/regions/us-central1"))
        (some "tok-123")) =
      { hostname := "cloudscheduler.googleapis.com"
        path := "/v1/projects/" ++ "proj-1" ++ "/locations/" ++
          jsOr envA.region (lastSegment "projects/123/regions/us-central1") ++
          "/jobs/" ++ envA.jobName ++ ":resume"
        method := "POST"
        authorization := "Bearer " ++ "tok-123"
        contentType := "application/json"
        body := "\x7b\x7d" } := by
  exact C5_request_shape envA wGood "proj-1" "projects/123/regions/us-central1"
    "tok-123" rfl rfl rfl

/-- C7: every earlier-stage failure — failed resolution, failed token
acquisition, or a transport failure of the scheduler request — is answered
with a 500 whose message embeds the failure's description, for both
endpoints; the handlers are total functions (no failure escapes them), and a
request to `/` in the same world is still served normally. -/
theorem C7_failure_isolation (env : Env) (w : World) :
    (∀ m calls, getProjectAndLocation w = (.error m, calls) →
      (stopJobHandler env w).1 =
        ⟨500, some "text/html", "<p>Error: Failed to pause job. Details: " ++ m ++ "</p>"⟩ ∧
      (startJobHandler env w).1 =
        ⟨500, some "text/html", "<p>Error: Failed to start job. Details: " ++ m ++ "</p>"⟩) ∧
    (∀ pid loc calls m, getProjectAndLocation w = (.ok (pid, loc), calls) →
      getTokenFromMetadataServer w = .error m →
      (stopJobHandler env w).1 =
        ⟨500, some "text/html", "<p>Error: Failed to pause job. Details: " ++ m ++ "</p>"⟩ ∧
      (startJobHandler env w).1 =
        ⟨500, some "text/html", "<p>Error: Failed to start job. Details: " ++ m ++ "</p>"⟩) ∧
    (∀ pid loc calls tok m, getProjectAndLocation w = (.ok (pid, loc), calls) →
      getTokenFromMetadataServer w = .ok tok →
      w.scheduler (stopJobOptions env pid (jsOr env.region loc) tok) = .transportError m →
      (stopJobHandler env w).1 =
        ⟨500, some "text/html", "<p>Error: Failed to pause job. Details: " ++ m ++ "</p>"⟩) ∧
    (∀ pid loc calls tok m, getProjectAndLocation w = (.ok (pid, loc), calls) →
      getTokenFromMetadataServer w = .ok tok →
      w.scheduler (startJobOptions env pid (jsOr env.region loc) tok) = .transportError m →
      (startJobHandler env w).1 =
        ⟨500, some "text/html", "<p>Error: Failed to start job. Details: " ++ m ++ "</p>"⟩) ∧
    (∀ page meth, w.indexHtml = .ok page →
      requestHandler env w ⟨meth, "/"⟩ = (⟨200, some "text/html", page⟩, [])) := by
  refine ⟨?_, ?_, ?_, ?_, ?_⟩
  · intro m calls h
    exact ⟨by rw [stopJobHandler_resolve_error env w m calls h],
           by rw [startJobHandler_resolve_error env w m calls h]⟩
  · intro pid loc calls m hres htok
    exact ⟨by rw [stopJobHandler_token_error env w pid loc m calls hres htok],
           by rw [startJobHandler_token_error env w pid loc m calls hres htok]⟩
  · intro pid loc calls tok m hres htok hs
    rw [stopJobHandler_transport env w pid loc m calls tok hres htok hs]
  · intro pid loc calls tok m hres htok hs
    rw [startJobHandler_transport env w pid loc m calls tok hres htok hs]
  · intro page meth hpage
    have hroot : pathnameOf "/" = "/" := rfl
    simp [requestHandler, hroot, hpage]

/-- C7 witness: with the metadata service unreachable, both endpoints answer
500 with the failure's description embedded, and a request to `/` in the same
world is still served the static page. -/
theorem C7_witness :
    (stopJobHandler envA wMetaDown).1 =
      ⟨500, some "text/html",
       "<p>Error: Failed to pause job. Details: " ++
         ("Error getting project ID and/or location from metadata server: " ++
           ("Error requesting metadata: " ++ "connect ECONNREFUSED")) ++ "</p>"⟩ ∧
    (startJobHandler envA wMetaDown).1 =
      ⟨500, some "text/html",
       "<p>Error: Failed to start job. Details: " ++
         ("Error getting project ID and/or location from metadata server: " ++
           ("Error requesting metadata: " ++ "connect ECONNREFUSED")) ++ "</p>"⟩ ∧
    requestHandler envA wMetaDown ⟨"GET", "/"⟩ =
      (⟨200, some "text/html", "<html>index</html>"⟩, []) := by
  have h := (C7_failure_isolation envA wMetaDown).1
    ("Error getting project ID and/or location from metadata server: " ++
      ("Error requesting metadata: " ++ "connect ECONNREFUSED"))
    [.metadataGet "project/project-id"] rfl
  have h2 := (C7_failure_isolation envA wMetaDown).2.2.2.2 "<html>index</html>" "GET" rfl
  exact ⟨h.1, h.2, h2⟩

/-- C8: within one request the stages run strictly in sequence and an
earlier failure short-circuits the rest: a failed resolution leaves no token
fetch and no scheduler call in the trace; a failed token fetch leaves no
scheduler call; and on full success the trace is exactly project-id lookup,
region lookup, token fetch, scheduler POST, in that order. -/
theorem C8_stage_ordering (env : Env) (w : World) :
    (∀ m calls, getProjectAndLocation w = (.error m, calls) →
      Call.metadataGet tokenPath ∉ (stopJobHandler env w).2 ∧
      schedCalls (stopJobHandler env w).2 = [] ∧
      Call.metadataGet tokenPath ∉ (startJobHandler env w).2 ∧
      schedCalls (startJobHandler env w).2 = []) ∧
    (∀ pid loc calls m, getProjectAndLocation w = (.ok (pid, loc), calls) →
      getTokenFromMetadataServer w = .error m →
      schedCalls (stopJobHandler env w).2 = [] ∧
      schedCalls (startJobHandler env w).2 = []) ∧
    (∀ pid r tok, w.metadata "project/project-id" = .ok pid →
      w.metadata "instance/region" = .ok r →
      getTokenFromMetadataServer w = .ok tok →
      (stopJobHandler env w).2 =
        [.metadataGet "project/project-id", .metadataGet "instance/region",
         .metadataGet tokenPath,
         .schedulerPost (stopJobOptions env pid (jsOr env.region (lastSegment r)) tok)] ∧
      (startJobHandler env w).2 =
        [.metadataGet "project/project-id", .metadataGet "instance/region",
         .metadataGet tokenPath,
         .schedulerPost (startJobOptions env pid (jsOr env.region (lastSegment r)) tok)]) := by
  refine ⟨?_, ?_, ?_⟩
  · intro m calls h
    have hc : calls = (getProjectAndLocation w).2 := by rw [h]
    have htr := getProjectAndLocation_trace w
    rw [← hc] at htr
    have hstop := stopJobHandler_resolve_error env w m calls h
    have hstart := startJobHandler_resolve_error env w m calls h
    rcases htr with htr | htr <;>
      exact ⟨by rw [hstop]; subst htr; simp [tokenPath],
             by rw [hstop]; subst htr; simp [schedCalls],
             by rw [hstart]; subst htr; simp [tokenPath],
             by rw [hstart]; subst htr; simp [schedCalls]⟩
  · intro pid loc calls m hres htok
    have hc : calls = (getProjectAndLocation w).2 := by rw [hres]
    have htr := getProjectAndLocation_trace w
    rw [← hc] at htr
    have hstop := stopJobHandler_token_error env w pid loc m calls hres htok
    have hstart := startJobHandler_token_error env w pid loc m calls hres htok
    rcases htr with htr | htr <;>
      exact ⟨by rw [hstop]; subst htr; simp [schedCalls],
             by rw [hstart]; subst htr; simp [schedCalls]⟩
  · intro pid r tok hp hr htok
    have hres := getProjectAndLocation_ok w pid r hp hr
    have h1 := stopJobHandler_trace env w pid (lastSegment r) _ tok hres htok
    have h2 := startJobHandler_trace env w pid (lastSegment r) _ tok hres htok
    exact ⟨by rw [h1]; rfl, by rw [h2]; rfl⟩

/-- C8 witness: short-circuiting and full-success ordering at concrete
worlds — metadata down (no token fetch, no scheduler call), token body
unparsable (no scheduler call), healthy world (the four calls in order). -/
theorem C8_witness :
    (Call.metadataGet tokenPath ∉ (stopJobHandler envA wMetaDown).2 ∧
     schedCalls (stopJobHandler envA wMetaDown).2 = []) ∧
    (schedCalls (stopJobHandler envA wParseErr).2 = [] ∧
     schedCalls (startJobHandler envA wParseErr).2 = []) ∧
    (stopJobHandler envA wGood).2 =
      [.metadataGet "project/project-id", .metadataGet "instance/region",
       .metadataGet tokenPath,
       .schedulerPost (stopJobOptions envA "proj-1"
         (jsOr envA.region (lastSegment "projects/123/regions/us-central1"))
         (some "tok-123"))] := by
  have hfail := (C8_stage_ordering envA wMetaDown).1
    ("Error getting project ID and/or location from metadata server: " ++
      ("Error requesting metadata: " ++ "connect ECONNREFUSED"))
    [.metadataGet "project/project-id"] rfl
  have htokfail := (C8_stage_ordering envA wParseErr).2.1
    "proj-1" (lastSegment "projects/123/regions/us-central1")
    [.metadataGet "project/project-id", .metadataGet "instance/region"]
    ("Error parsing token from metadata server: " ++ "Unexpected end of JSON input")
    rfl rfl
  have hfull := (C8_stage_ordering envA wGood).2.2
    "proj-1" "projects/123/regions/us-central1" (some "tok-123") rfl rfl rfl
  exact ⟨⟨hfail.1, hfail.2.1⟩, htokfail, hfull.1⟩

end CloudSchedulerButton
